import Mathlib

/-!
Shallow embedding of the AINode client layer
(`iotdb-core/ainode/iotdb/ainode/client.py`): the leader-tracking
`ConfigNodeClient` with its retry/redirect machinery, and the paginated
`DataNodeClient.fetch_timeseries`.  Network effects are made explicit:
endpoint reachability is a boolean oracle, and the remote service's replies
are passed in as a script (one entry per RPC invocation).
-/

deriving instance DecidableEq for Except

/-- TEndPoint from the thrift common types: an immutable (ip, port) pair. -/
structure TEndPoint where
  ip : String
  port : Nat
deriving DecidableEq, Repr

/-- TSStatus from the thrift common types, restricted to the fields the
client reads: the status code and the optional redirect hint. -/
structure TSStatus where
  code : Nat
  redirectNode : Option TEndPoint
deriving DecidableEq, Repr

/-- Modelled from the spec: the numeric status codes live in
`iotdb.ainode.constant.TSStatusCode`, which is not part of the provided
source.  Only two codes matter to the client: the success code and the
reserved code meaning "redirect".  The exact numbers are irrelevant; they
only need to be distinct. -/
def SUCCESS_STATUS : Nat := 200

/-- Modelled from the spec: the reserved "redirect" status code
(`TSStatusCode.REDIRECTION_RECOMMEND`). -/
def REDIRECTION_RECOMMEND : Nat := 400

/-- Modelled from the spec: `verify_success` (from `iotdb.ainode.util`, not
in the provided source) raises when a definitive status is not the success
status; such application-level errors are surfaced to the caller.  In the
embedding the raise is represented by the caller producing the matching
error constructor, see `opLoop` and `fetch_timeseries`. -/
def verify_success_ok (status : TSStatus) : Bool :=
  status.code == SUCCESS_STATUS

/-- Errors surfaced by the config-node client.  `clusterUnreachable`
models a raised `TException` with the reconnection-failure message;
`operationFailure` models the exception raised by `verify_success` on a
definitive non-success status. -/
inductive ClientError where
  | clusterUnreachable (msg : String)
  | operationFailure (code : Nat)
deriving DecidableEq, Repr

/-- The outcome of one RPC invocation as seen by the caller: either the
transport-level exception (`TTransport.TException`) or a decoded reply. -/
inductive RpcResult (α : Type) where
  | thrown
  | reply (resp : α)
deriving DecidableEq, Repr

/-- self.__MSG_RECONNECTION_FAIL in ConfigNodeClient.__init__. -/
def msgReconnectionFail : String :=
  "Fail to connect to any config node. Please check status of ConfigNodes"

/-- self.__RETRY_NUM in ConfigNodeClient.__init__. -/
def RETRY_NUM : Nat := 5

/-- State of a `ConfigNodeClient`, one field per Python attribute, plus a
ghost field `openTransports` recording every transport this client has
opened and not closed (in opening order), used to state the
one-open-connection invariant.  `transport` is `self.__transport` (the
stored transport handle) and `client` is the endpoint targeted by the
current RPC stub `self.__client`. -/
structure ConfigNodeClient where
  config_leader : Option TEndPoint
  config_nodes : List TEndPoint
  cursor : Nat
  transport : Option TEndPoint
  client : Option TEndPoint
  openTransports : List TEndPoint
deriving DecidableEq, Repr

/-- ConfigNodeClient.__connect: opens a new framed transport to the target
(recorded in the ghost `openTransports` list) and rebuilds the RPC stub
`self.__client`.  Faithful to the source, it does NOT assign
`self.__transport` and does not close any previously opened transport.
The compression flag only selects the wire protocol and has no effect on
the state.  Callers invoke it only when the target is reachable (an
unreachable target makes `transport.open()` raise before anything is
recorded). -/
def connectTo (target : TEndPoint) (s : ConfigNodeClient) : ConfigNodeClient :=
  { s with client := some target, openTransports := s.openTransports ++ [target] }

/-- The `if self.__transport is not None: self.__transport.close()` step of
ConfigNodeClient.__try_to_connect.  Closing removes the transport from the
ghost open list; the Python keeps `self.__transport` set after closing. -/
def closeCurrentTransport (s : ConfigNodeClient) : ConfigNodeClient :=
  match s.transport with
  | none => s
  | some t => { s with openTransports := s.openTransports.erase t }

/-- Fallback endpoint for list indexing; never returned when the index is
in range (the Python indexing would raise IndexError out of range, which is
unreachable because the cursor is reduced modulo the list length). -/
def defaultEndpoint : TEndPoint := { ip := "", port := 0 }

/-- Result of ConfigNodeClient.__try_to_connect: the mutated client state,
the raised exception if any (the Python raises
`TException(MSG_RECONNECTION_FAIL)` when no endpoint connects), and the
ghost list of endpoints a connection was attempted to, in order. -/
structure TryResult where
  state : ConfigNodeClient
  err : Option ClientError
  tried : List TEndPoint
deriving DecidableEq, Repr

/-- The `while try_host_num < len(self.__config_nodes)` loop of
ConfigNodeClient.__try_to_connect, with the loop counter turned into
structural fuel (the loop body never changes `config_nodes`, so the bound
is fixed; callers pass `s.config_nodes.length`).  Each iteration advances
the cursor modulo the list length, reads the member at the new cursor, and
tries to connect; when the fuel runs out the trailing
`raise TException(MSG_RECONNECTION_FAIL)` fires. -/
def roundRobin (reach : TEndPoint → Bool) : Nat → ConfigNodeClient → TryResult
  | 0, s => { state := s, err := some (.clusterUnreachable msgReconnectionFail), tried := [] }
  | n + 1, s =>
    let len := s.config_nodes.length
    let c := (s.cursor + 1) % len
    let ep := s.config_nodes.getD c defaultEndpoint
    let s1 := { s with cursor := c }
    if reach ep then
      { state := connectTo ep s1, err := none, tried := [ep] }
    else
      let r := roundRobin reach n s1
      { r with tried := ep :: r.tried }

/-- ConfigNodeClient.__try_to_connect: try the presumed leader first when
set (clearing it on failure), close the stored transport if any, then
round-robin through the known members. -/
def tryToConnect (reach : TEndPoint → Bool) (s : ConfigNodeClient) : TryResult :=
  match s.config_leader with
  | some leader =>
    if reach leader then
      { state := connectTo leader s, err := none, tried := [leader] }
    else
      let s1 := closeCurrentTransport { s with config_leader := none }
      let r := roundRobin reach s1.config_nodes.length s1
      { r with tried := leader :: r.tried }
  | none =>
    let s1 := closeCurrentTransport s
    roundRobin reach s1.config_nodes.length s1

/-- ConfigNodeClient.__wait_and_reconnect: sleep (irrelevant to state),
try to connect; on failure run the membership-refresh hook
`__sync_latest_config_node_list` (a no-op in the source) and try once
more, letting a second failure propagate. -/
def waitAndReconnect (reach : TEndPoint → Bool) (s : ConfigNodeClient) :
    ConfigNodeClient × Option ClientError :=
  let t1 := tryToConnect reach s
  match t1.err with
  | none => (t1.state, none)
  | some _ =>
    let t2 := tryToConnect reach t1.state
    (t2.state, t2.err)

/-- ConfigNodeClient.__update_config_node_leader: on the redirect status
code, store the redirect hint (possibly clearing the leader) and report
`true`; otherwise leave the state alone and report `false`. -/
def updateConfigNodeLeader (status : TSStatus) (s : ConfigNodeClient) :
    ConfigNodeClient × Bool :=
  if status.code = REDIRECTION_RECOMMEND then
    ({ s with config_leader := status.redirectNode }, true)
  else
    (s, false)

/-- The shared `for _ in range(0, self.__RETRY_NUM)` retry loop of
node_register / node_restart / node_remove / get_ainode_configuration,
abstracted over the reply type: `stat` projects the reply's status,
`onSuccess` is the success-path state update, `payload` the returned
value.  The script lists the outcomes of successive RPC invocations; an
exhausted script stands for a server that never answers (the transport
exception).  Returns the Python result (return value paired with the
final state, or the raised exception) together with the number of RPC
invocations actually issued. -/
def opLoop (reach : TEndPoint → Bool) (stat : α → TSStatus)
    (onSuccess : α → ConfigNodeClient → ConfigNodeClient) (payload : α → β) :
    List (RpcResult α) → Nat → ConfigNodeClient →
    Except ClientError (β × ConfigNodeClient) × Nat
  | _, 0, _ => (.error (.clusterUnreachable msgReconnectionFail), 0)
  | script, fuel + 1, s =>
    let step := match script with
      | [] => (RpcResult.thrown, ([] : List (RpcResult α)))
      | r :: rest => (r, rest)
    match step with
    | (.thrown, rest) =>
      let s1 := { s with config_leader := none }
      match waitAndReconnect reach s1 with
      | (s2, none) =>
        let r := opLoop reach stat onSuccess payload rest fuel s2
        (r.1, r.2 + 1)
      | (_, some e) => (.error e, 1)
    | (.reply a, rest) =>
      let (s1, redirected) := updateConfigNodeLeader (stat a) s
      if redirected then
        match waitAndReconnect reach s1 with
        | (s2, none) =>
          let r := opLoop reach stat onSuccess payload rest fuel s2
          (r.1, r.2 + 1)
        | (_, some e) => (.error e, 1)
      else
        if verify_success_ok (stat a) then
          (.ok (payload a, onSuccess a s1), 1)
        else
          (.error (.operationFailure (stat a).code), 1)

/-- Request payload of registerAINode; opaque to the control flow. -/
structure TAINodeConfiguration
deriving DecidableEq, Repr

/-- Version info payload of register/restart requests; opaque. -/
structure TNodeVersionInfo
deriving DecidableEq, Repr

/-- Location payload of removeAINode; opaque. -/
structure TAINodeLocation
deriving DecidableEq, Repr

/-- Reply of registerAINode: status, the current membership list, and the
assigned node id. -/
structure TAINodeRegisterResp where
  status : TSStatus
  configNodeList : List TEndPoint
  aiNodeId : Int
deriving DecidableEq, Repr

/-- Reply of restartAINode: status and the current membership list. -/
structure TAINodeRestartResp where
  status : TSStatus
  configNodeList : List TEndPoint
deriving DecidableEq, Repr

/-- Reply of getAINodeConfiguration: status and the configuration map
(entries opaque). -/
structure TAINodeConfigurationResp where
  status : TSStatus
  aiNodeConfigurationMap : List (Int × TAINodeConfiguration)
deriving DecidableEq, Repr

/-- ConfigNodeClient.node_register.  Success refreshes
`self.__config_nodes` from the reply's `configNodeList` and returns the
assigned `aiNodeId`. -/
def node_register (reach : TEndPoint → Bool) (_cluster_name : String)
    (_configuration : TAINodeConfiguration) (_version_info : TNodeVersionInfo)
    (script : List (RpcResult TAINodeRegisterResp)) (s : ConfigNodeClient) :
    Except ClientError (Int × ConfigNodeClient) × Nat :=
  opLoop reach (fun r => r.status)
    (fun r t => { t with config_nodes := r.configNodeList })
    (fun r => r.aiNodeId) script RETRY_NUM s

/-- ConfigNodeClient.node_restart.  Success refreshes
`self.__config_nodes` and returns the reply's status. -/
def node_restart (reach : TEndPoint → Bool) (_cluster_name : String)
    (_configuration : TAINodeConfiguration) (_version_info : TNodeVersionInfo)
    (script : List (RpcResult TAINodeRestartResp)) (s : ConfigNodeClient) :
    Except ClientError (TSStatus × ConfigNodeClient) × Nat :=
  opLoop reach (fun r => r.status)
    (fun r t => { t with config_nodes := r.configNodeList })
    (fun r => r.status) script RETRY_NUM s

/-- ConfigNodeClient.node_remove.  The reply of removeAINode is a bare
TSStatus; the success path returns it and performs no other state
update. -/
def node_remove (reach : TEndPoint → Bool) (_location : TAINodeLocation)
    (script : List (RpcResult TSStatus)) (s : ConfigNodeClient) :
    Except ClientError (TSStatus × ConfigNodeClient) × Nat :=
  opLoop reach (fun r => r) (fun _ t => t) (fun r => r) script RETRY_NUM s

/-- ConfigNodeClient.get_ainode_configuration.  The success path returns
the configuration map and performs no other state update. -/
def get_ainode_configuration (reach : TEndPoint → Bool) (_node_id : Int)
    (script : List (RpcResult TAINodeConfigurationResp)) (s : ConfigNodeClient) :
    Except ClientError (List (Int × TAINodeConfiguration) × ConfigNodeClient) × Nat :=
  opLoop reach (fun r => r.status) (fun _ t => t)
    (fun r => r.aiNodeConfigurationMap) script RETRY_NUM s

/-- The field initialisation of ConfigNodeClient.__init__ before the eager
`self.__try_to_connect()` call: empty member list, cursor 0, no stored
transport, no stub. -/
def ConfigNodeClient.initialState (config_leader : TEndPoint) : ConfigNodeClient :=
  { config_leader := some config_leader, config_nodes := [], cursor := 0,
    transport := none, client := none, openTransports := [] }

/-- ConfigNodeClient.__init__: initialise the fields and eagerly connect;
a failed `__try_to_connect` propagates out of the constructor, so no
client object is produced. -/
def ConfigNodeClient.init (reach : TEndPoint → Bool) (config_leader : TEndPoint) :
    Except ClientError ConfigNodeClient :=
  let t := tryToConnect reach (ConfigNodeClient.initialState config_leader)
  match t.err with
  | none => .ok t.state
  | some e => .error e

/-!
The ClientManager factory.  The Python passes the value of
`descriptor.get_config().get_ain_target_config_node_list()` as the
`config_leader` keyword argument of `ConfigNodeClient.__init__` (whose
annotation says `TEndPoint`).  Because Python does not check annotations,
the argument can be — and, per its getter's name and the configuration
surface of the spec, is — the whole resolved endpoint list.  The dynamic
typing is captured by `ConfigLeaderArg`. -/

/-- A dynamically-typed value handed to ConfigNodeClient's
`config_leader` parameter: a single endpoint, a list of endpoints, or
Python None. -/
inductive ConfigLeaderArg where
  | endpoint (e : TEndPoint)
  | endpointList (l : List TEndPoint)
  | null
deriving DecidableEq, Repr

/-- The attribute assignments of ConfigNodeClient.__init__ viewed with a
dynamically-typed `config_leader`:
`self.__config_leader = config_leader; self.__config_nodes = [];
self.__cursor = 0`. -/
structure ConfigNodeClientFields where
  config_leader : ConfigLeaderArg
  config_nodes : List TEndPoint
  cursor : Nat
deriving DecidableEq, Repr

/-- The field initialisation of ConfigNodeClient.__init__ applied to
whatever value the caller passed as `config_leader`. -/
def configNodeClientFieldsOf (config_leader : ConfigLeaderArg) : ConfigNodeClientFields :=
  { config_leader := config_leader, config_nodes := [], cursor := 0 }

/-- Modelled from the spec: `get_ain_target_config_node_list` (from
`iotdb.ainode.config`, not in the provided source) returns the resolved
ordered list of control-plane endpoints from the configuration surface. -/
def get_ain_target_config_node_list (resolved : List TEndPoint) : ConfigLeaderArg :=
  .endpointList resolved

/-- ClientManager.borrow_config_node_client:
`ConfigNodeClient(config_leader=self.__config_node_endpoint)`, where
`self.__config_node_endpoint` is the value returned by
`get_ain_target_config_node_list()`. -/
def borrow_config_node_client (resolved : List TEndPoint) : ConfigNodeClientFields :=
  configNodeClientFieldsOf (get_ain_target_config_node_list resolved)

/-!
The data-node side: `DataNodeClient.fetch_timeseries`.  The server's
replies are passed in as the first-page reply plus a script of
fetch-more replies. -/

/-- DataNodeClient.DEFAULT_FETCH_SIZE. -/
def DEFAULT_FETCH_SIZE : Nat := 10000

/-- DataNodeClient.DEFAULT_TIMEOUT. -/
def DEFAULT_TIMEOUT : Nat := 60000

/-- Reply of fetchTimeseries, restricted to the fields the client reads.
`tsDataset` is the first page's encoded rows (one entry per row). -/
structure TFetchTimeseriesResp where
  status : TSStatus
  queryId : Int
  columnNameList : List String
  columnTypeList : List String
  columnNameIndexMap : List (String × Nat)
  tsDataset : List (List Int)
  hasMoreData : Bool
deriving DecidableEq, Repr

/-- Reply of fetchMoreData, restricted to the fields the client reads. -/
structure TFetchMoreDataResp where
  status : TSStatus
  tsDataset : List (List Int)
  hasMoreData : Bool
deriving DecidableEq, Repr

/-- Errors surfaced by fetch_timeseries.  `queryFailure` models the
exception raised by `verify_success` on the initial call, `emptyResult`
the RuntimeError raised on an empty result, `fetchFailure` the exception
raised by `verify_success` on a pagination call, and `transportFailure` a
transport exception during pagination (in the embedding: the reply script
is exhausted while more data is expected). -/
inductive FetchError where
  | queryFailure (code : Nat) (msg : String)
  | emptyResult (msg : String)
  | fetchFailure (code : Nat) (msg : String)
  | transportFailure
deriving DecidableEq, Repr

/-- Modelled from the spec: `serde.convert_to_df` (not in the provided
source) decodes the binary dataset into the tabular frame, one row per
dataset entry, preserving arrival order; the column metadata only guides
the per-cell decoding. -/
def convert_to_df (_columnNameList : List String) (_columnTypeList : List String)
    (_columnNameIndexMap : List (String × Nat)) (tsDataset : List (List Int)) :
    List (List Int) :=
  tsDataset

/-- The `while has_more_data` loop of DataNodeClient.fetch_timeseries:
request the next page, verify its status, append its rows to the
accumulated frame, update `has_more_data`.  Returns the result together
with the number of fetchMoreData RPCs issued. -/
def fetchLoop (columnNameList : List String) (columnTypeList : List String)
    (columnNameIndexMap : List (String × Nat)) :
    List TFetchMoreDataResp → Bool → List (List Int) →
    Except FetchError (List (List Int)) × Nat
  | _, false, data => (.ok data, 0)
  | [], true, _ => (.error .transportFailure, 1)
  | resp :: rest, true, data =>
    if verify_success_ok resp.status then
      let data1 := data ++ convert_to_df columnNameList columnTypeList
        columnNameIndexMap resp.tsDataset
      let r := fetchLoop columnNameList columnTypeList columnNameIndexMap
        rest resp.hasMoreData data1
      (r.1, r.2 + 1)
    else
      (.error (.fetchFailure resp.status.code
        "An error occurs when calling fetch_more_data()"), 1)

/-- DataNodeClient.fetch_timeseries: issue the initial query, verify its
status, raise on a zero-row first page, decode, then drain the remaining
pages.  Returns the result together with the number of fetchMoreData RPCs
issued. -/
def fetch_timeseries (query_body : String) (_fetch_size : Nat) (_timeout : Nat)
    (firstResp : TFetchTimeseriesResp) (moreScript : List TFetchMoreDataResp) :
    Except FetchError (List (List Int)) × Nat :=
  if verify_success_ok firstResp.status then
    if firstResp.tsDataset.length = 0 then
      (.error (.emptyResult ("No data fetched with sql: " ++ query_body)), 0)
    else
      let data := convert_to_df firstResp.columnNameList firstResp.columnTypeList
        firstResp.columnNameIndexMap firstResp.tsDataset
      if data.isEmpty then
        (.error (.emptyResult ("Fetched empty data with sql: " ++ query_body)), 0)
      else
        fetchLoop firstResp.columnNameList firstResp.columnTypeList
          firstResp.columnNameIndexMap moreScript firstResp.hasMoreData data
  else
    (.error (.queryFailure firstResp.status.code
      "An error occurs when calling fetch_timeseries()"), 0)

/-!
Derived notions used to state the claims. -/

/-- The i-th round-robin candidate relative to a member list and a cursor:
the member at index `(cursor + 1 + i) mod length`. -/
def candidate (L : List TEndPoint) (c : Nat) (i : Nat) : TEndPoint :=
  L.getD ((c + 1 + i) % L.length) defaultEndpoint

/-- An RPC outcome that does not settle the operation: a transport
exception, or a reply carrying the redirect status. -/
def attemptFails (stat : α → TSStatus) : RpcResult α → Bool
  | .thrown => true
  | .reply a => (stat a).code == REDIRECTION_RECOMMEND

/-!
Basic lemmas. -/

@[simp] lemma closeCurrentTransport_config_leader (s : ConfigNodeClient) :
    (closeCurrentTransport s).config_leader = s.config_leader := by
  unfold closeCurrentTransport
  cases s.transport <;> rfl

@[simp] lemma closeCurrentTransport_config_nodes (s : ConfigNodeClient) :
    (closeCurrentTransport s).config_nodes = s.config_nodes := by
  unfold closeCurrentTransport
  cases s.transport <;> rfl

@[simp] lemma closeCurrentTransport_cursor (s : ConfigNodeClient) :
    (closeCurrentTransport s).cursor = s.cursor := by
  unfold closeCurrentTransport
  cases s.transport <;> rfl

lemma cursor_shift (len c i : Nat) :
    ((c + 1) % len + 1 + i) % len = (c + 1 + (i + 1)) % len := by
  rw [Nat.add_assoc, Nat.mod_add_mod]
  congr 1
  omega

lemma candidate_shift (L : List TEndPoint) (c i : Nat) :
    candidate L ((c + 1) % L.length) i = candidate L c (i + 1) := by
  simp [candidate, cursor_shift]

lemma candidate_fun_shift (L : List TEndPoint) (c : Nat) :
    candidate L ((c + 1) % L.length) = fun i => candidate L c (i + 1) :=
  funext (candidate_shift L c)

/-- Characterisation of the round-robin loop when no candidate within the
fuel is reachable: the trailing raise fires after every candidate was
tried in order, and the state changes only in the cursor. -/
lemma roundRobin_miss (reach : TEndPoint → Bool) :
    ∀ (n : Nat) (s : ConfigNodeClient),
    (∀ i < n, reach (candidate s.config_nodes s.cursor i) = false) →
    (roundRobin reach n s).err = some (.clusterUnreachable msgReconnectionFail) ∧
    (roundRobin reach n s).tried
      = (List.range n).map (candidate s.config_nodes s.cursor) ∧
    (roundRobin reach n s).state.config_nodes = s.config_nodes ∧
    (roundRobin reach n s).state.client = s.client ∧
    (roundRobin reach n s).state.openTransports = s.openTransports := by
  intro n
  induction n with
  | zero =>
    intro s _
    simp [roundRobin]
  | succ n ih =>
    intro s h
    have h0 : reach (candidate s.config_nodes s.cursor 0) = false :=
      h 0 (Nat.succ_pos n)
    have hce : s.config_nodes.getD ((s.cursor + 1) % s.config_nodes.length)
        defaultEndpoint = candidate s.config_nodes s.cursor 0 := by
      simp [candidate]
    have hmiss : ∀ i < n,
        reach (candidate s.config_nodes ((s.cursor + 1) % s.config_nodes.length) i)
          = false := by
      intro i hi
      rw [candidate_shift]
      exact h (i + 1) (Nat.succ_lt_succ hi)
    obtain ⟨ih1, ih2, ih3, ih4, ih5⟩ :=
      ih { s with cursor := (s.cursor + 1) % s.config_nodes.length } hmiss
    simp only [roundRobin, hce, h0, Bool.false_eq_true, if_false]
    refine ⟨ih1, ?_, ih3, ih4, ih5⟩
    rw [ih2, List.range_succ_eq_map, List.map_cons, List.map_map]
    simp only [candidate_fun_shift]
    congr 1

/-- The round-robin loop either connects or raises the fixed
reconnection-failure exception. -/
lemma roundRobin_err (reach : TEndPoint → Bool) :
    ∀ (n : Nat) (s : ConfigNodeClient),
    (roundRobin reach n s).err = none ∨
    (roundRobin reach n s).err = some (.clusterUnreachable msgReconnectionFail) := by
  intro n
  induction n with
  | zero =>
    intro s
    right
    rfl
  | succ n ih =>
    intro s
    simp only [roundRobin]
    split
    · left
      rfl
    · exact ih _

/-- After at least one round-robin iteration the stored cursor is a valid
index into the member list. -/
lemma roundRobin_cursor_lt (reach : TEndPoint → Bool) :
    ∀ (n : Nat) (s : ConfigNodeClient), 0 < s.config_nodes.length →
    (roundRobin reach (n + 1) s).state.cursor < s.config_nodes.length := by
  intro n
  induction n with
  | zero =>
    intro s h
    rw [roundRobin]
    split
    · exact Nat.mod_lt _ h
    · rw [roundRobin]
      exact Nat.mod_lt _ h
  | succ n ih =>
    intro s h
    rw [roundRobin]
    split
    · exact Nat.mod_lt _ h
    · exact ih { s with cursor := (s.cursor + 1) % s.config_nodes.length } h

/-- Characterisation of the round-robin loop when the j-th candidate is
the first reachable one: the loop stops there, with the cursor left at
that candidate's index and a connection opened to it. -/
lemma roundRobin_hit (reach : TEndPoint → Bool) :
    ∀ (j n : Nat) (s : ConfigNodeClient), j < n →
    (∀ i < j, reach (candidate s.config_nodes s.cursor i) = false) →
    reach (candidate s.config_nodes s.cursor j) = true →
    roundRobin reach n s =
      { state := connectTo (candidate s.config_nodes s.cursor j)
          { s with cursor := (s.cursor + 1 + j) % s.config_nodes.length },
        err := none,
        tried := (List.range (j + 1)).map (candidate s.config_nodes s.cursor) } := by
  intro j
  induction j with
  | zero =>
    intro n s hn hmiss hhit
    obtain ⟨m, rfl⟩ : ∃ m, n = m + 1 := ⟨n - 1, by omega⟩
    have hce : s.config_nodes.getD ((s.cursor + 1) % s.config_nodes.length)
        defaultEndpoint = candidate s.config_nodes s.cursor 0 := by
      simp [candidate]
    simp only [roundRobin, hce, hhit, if_true]
    congr 1
  | succ j ih =>
    intro n s hn hmiss hhit
    obtain ⟨m, rfl⟩ : ∃ m, n = m + 1 := ⟨n - 1, by omega⟩
    have h0 : reach (candidate s.config_nodes s.cursor 0) = false :=
      hmiss 0 (Nat.succ_pos j)
    have hce : s.config_nodes.getD ((s.cursor + 1) % s.config_nodes.length)
        defaultEndpoint = candidate s.config_nodes s.cursor 0 := by
      simp [candidate]
    have hmiss' : ∀ i < j,
        reach (candidate s.config_nodes ((s.cursor + 1) % s.config_nodes.length) i)
          = false := by
      intro i hi
      rw [candidate_shift]
      exact hmiss (i + 1) (Nat.succ_lt_succ hi)
    have hhit' :
        reach (candidate s.config_nodes ((s.cursor + 1) % s.config_nodes.length) j)
          = true := by
      rw [candidate_shift]
      exact hhit
    have ihs := ih m { s with cursor := (s.cursor + 1) % s.config_nodes.length }
      (by omega) hmiss' hhit'
    simp only [roundRobin, hce, h0, Bool.false_eq_true, if_false, ihs]
    rw [TryResult.mk.injEq]
    refine ⟨?_, rfl, ?_⟩
    · rw [candidate_shift, cursor_shift]
    · conv_rhs => rw [show j + 1 + 1 = (j + 1) + 1 from rfl, List.range_succ_eq_map]
      rw [List.map_cons, List.map_map]
      simp only [candidate_fun_shift]
      congr 1

/-- __try_to_connect either connects or raises the fixed
reconnection-failure exception. -/
lemma tryToConnect_err (reach : TEndPoint → Bool) (s : ConfigNodeClient) :
    (tryToConnect reach s).err = none ∨
    (tryToConnect reach s).err = some (.clusterUnreachable msgReconnectionFail) := by
  unfold tryToConnect
  cases hl : s.config_leader with
  | none => exact roundRobin_err reach _ _
  | some l =>
    by_cases hr : reach l
    · simp [hr]
    · simpa [hr] using roundRobin_err reach _ _

/-- __wait_and_reconnect either reconnects or propagates the fixed
reconnection-failure exception from the second __try_to_connect. -/
lemma waitAndReconnect_err (reach : TEndPoint → Bool) (s : ConfigNodeClient) :
    (waitAndReconnect reach s).2 = none ∨
    (waitAndReconnect reach s).2 = some (.clusterUnreachable msgReconnectionFail) := by
  unfold waitAndReconnect
  rcases h1 : (tryToConnect reach s).err with _ | e
  · simp [h1]
  · simpa [h1] using tryToConnect_err reach (tryToConnect reach s).state

/-- If every scripted RPC outcome is a transport exception or a redirect,
the retry loop ends in the reconnection-failure exception, issuing at most
`fuel` RPCs, and never returns a value. -/
lemma opLoop_all_fail {α β : Type} (reach : TEndPoint → Bool) (stat : α → TSStatus)
    (onSuccess : α → ConfigNodeClient → ConfigNodeClient) (payload : α → β) :
    ∀ (fuel : Nat) (script : List (RpcResult α)) (s : ConfigNodeClient),
    script.all (attemptFails stat) = true →
    (opLoop reach stat onSuccess payload script fuel s).1
      = .error (.clusterUnreachable msgReconnectionFail) ∧
    (opLoop reach stat onSuccess payload script fuel s).2 ≤ fuel := by
  intro fuel
  induction fuel with
  | zero =>
    intro script s _
    exact ⟨rfl, Nat.le_refl 0⟩
  | succ n ih =>
    intro script s hall
    cases script with
    | nil =>
      simp only [opLoop]
      split
      · rename_i s2 hw
        obtain ⟨ih1, ih2⟩ := ih [] s2 rfl
        exact ⟨ih1, by omega⟩
      · rename_i p e hw
        rcases waitAndReconnect_err reach { s with config_leader := none } with h2 | h2 <;>
          rw [hw] at h2 <;> simp at h2
        subst h2
        exact ⟨rfl, by omega⟩
    | cons r rest =>
      rw [List.all_cons, Bool.and_eq_true] at hall
      obtain ⟨hr, hrest⟩ := hall
      cases r with
      | thrown =>
        simp only [opLoop]
        split
        · rename_i s2 hw
          obtain ⟨ih1, ih2⟩ := ih rest s2 hrest
          exact ⟨ih1, by omega⟩
        · rename_i p e hw
          rcases waitAndReconnect_err reach { s with config_leader := none } with h2 | h2 <;>
            rw [hw] at h2 <;> simp at h2
          subst h2
          exact ⟨rfl, by omega⟩
      | reply a =>
        have hcode : (stat a).code = REDIRECTION_RECOMMEND := by
          simpa [attemptFails] using hr
        simp only [opLoop, updateConfigNodeLeader, hcode, eq_self_iff_true, if_true]
        split
        · rename_i s2 hw
          obtain ⟨ih1, ih2⟩ := ih rest s2 hrest
          exact ⟨ih1, by omega⟩
        · rename_i p e hw
          rcases waitAndReconnect_err reach
              { s with config_leader := (stat a).redirectNode } with h2 | h2 <;>
            rw [hw] at h2 <;> simp at h2
          subst h2
          exact ⟨rfl, by omega⟩

/-- Characterisation of the pagination loop on a run of successful pages:
every page whose predecessor reported more data is fetched and appended in
arrival order, and fetching stops with the first page reporting no more
data; pages after it are never requested. -/
lemma fetchLoop_pages (cn ct : List String) (cm : List (String × Nat)) :
    ∀ (qs : List TFetchMoreDataResp) (q : TFetchMoreDataResp)
      (rest : List TFetchMoreDataResp) (data : List (List Int)),
    (∀ p ∈ qs, p.status.code = SUCCESS_STATUS ∧ p.hasMoreData = true) →
    q.status.code = SUCCESS_STATUS → q.hasMoreData = false →
    fetchLoop cn ct cm (qs ++ q :: rest) true data =
      (.ok (data ++ (qs.map (fun p => p.tsDataset)).flatten ++ q.tsDataset),
       qs.length + 1) := by
  intro qs
  induction qs with
  | nil =>
    intro q rest data _ hq hqm
    simp [fetchLoop, verify_success_ok, hq, hqm, convert_to_df]
  | cons p qs ih =>
    intro q rest data hqs hq hqm
    have hp := hqs p (List.mem_cons_self p qs)
    have hrec := ih q rest (data ++ p.tsDataset)
      (fun x hx => hqs x (List.mem_cons_of_mem p hx)) hq hqm
    simp [fetchLoop, verify_success_ok, hp.1, hp.2, convert_to_df, hrec,
      List.append_assoc]

/-- C4: for every sequence of successful pages, fetch_timeseries issues a
fetch-more request exactly while has_more is true and never after has_more
is false, and returns the concatenation of all pages' rows in
page-arrival order. -/
theorem c4_pagination (query_body : String) (fetch_size timeout : Nat)
    (firstResp : TFetchTimeseriesResp) (qs : List TFetchMoreDataResp)
    (q : TFetchMoreDataResp) (rest : List TFetchMoreDataResp)
    (hfs : firstResp.status.code = SUCCESS_STATUS)
    (hne : firstResp.tsDataset ≠ []) :
    (firstResp.hasMoreData = false →
      ∀ moreScript,
        fetch_timeseries query_body fetch_size timeout firstResp moreScript
          = (.ok firstResp.tsDataset, 0)) ∧
    (firstResp.hasMoreData = true →
      (∀ p ∈ qs, p.status.code = SUCCESS_STATUS ∧ p.hasMoreData = true) →
      q.status.code = SUCCESS_STATUS → q.hasMoreData = false →
      fetch_timeseries query_body fetch_size timeout firstResp (qs ++ q :: rest)
        = (.ok (firstResp.tsDataset
              ++ (qs.map (fun p => p.tsDataset)).flatten ++ q.tsDataset),
           qs.length + 1)) := by
  have hlen : ¬ firstResp.tsDataset.length = 0 := by
    simpa [List.length_eq_zero] using hne
  have hemp : firstResp.tsDataset.isEmpty = false := by
    cases hts : firstResp.tsDataset with
    | nil => exact absurd hts hne
    | cons a l => rfl
  constructor
  · intro hm moreScript
    simp [fetch_timeseries, verify_success_ok, hfs, hlen, hemp, convert_to_df,
      hm, fetchLoop]
  · intro hm hqs hq hqm
    have hrun := fetchLoop_pages firstResp.columnNameList firstResp.columnTypeList
      firstResp.columnNameIndexMap qs q rest firstResp.tsDataset hqs hq hqm
    simp [fetch_timeseries, verify_success_ok, hfs, hlen, hemp, convert_to_df,
      hm, hrun]

/-- Page of five rows, more data pending. -/
def page5 : TFetchTimeseriesResp :=
  { status := { code := SUCCESS_STATUS, redirectNode := none }, queryId := 1,
    columnNameList := ["time"], columnTypeList := ["INT64"],
    columnNameIndexMap := [("time", 0)],
    tsDataset := [[1], [2], [3], [4], [5]], hasMoreData := true }

/-- Page of three rows, more data pending. -/
def page3 : TFetchMoreDataResp :=
  { status := { code := SUCCESS_STATUS, redirectNode := none },
    tsDataset := [[6], [7], [8]], hasMoreData := true }

/-- Empty final page. -/
def page0 : TFetchMoreDataResp :=
  { status := { code := SUCCESS_STATUS, redirectNode := none },
    tsDataset := [], hasMoreData := false }

/-- Witness for C4: the 5-row/3-row/0-row scenario yields exactly 8 rows
with exactly two fetch-more calls. -/
theorem c4_pagination_witness :
    fetch_timeseries "select s0 from root.sg" 10000 60000 page5 ([page3] ++ page0 :: [])
      = (.ok (page5.tsDataset
            ++ ([page3].map (fun p => p.tsDataset)).flatten ++ page0.tsDataset),
         [page3].length + 1) ∧
    (page5.tsDataset
      ++ ([page3].map (fun p => p.tsDataset)).flatten ++ page0.tsDataset).length = 8 :=
  ⟨(c4_pagination "select s0 from root.sg" 10000 60000 page5 [page3] page0 []
      rfl (by decide)).2 rfl (by decide) rfl rfl,
   by decide⟩

/-- C5: a successful open-query whose first page has zero rows fails with
EmptyResult — an error distinct from QueryFailure — and issues no
fetch-more call. -/
theorem c5_empty_first_page (query_body : String) (fetch_size timeout : Nat)
    (firstResp : TFetchTimeseriesResp) (moreScript : List TFetchMoreDataResp)
    (hfs : firstResp.status.code = SUCCESS_STATUS)
    (hempty : firstResp.tsDataset = []) :
    fetch_timeseries query_body fetch_size timeout firstResp moreScript
      = (.error (.emptyResult ("No data fetched with sql: " ++ query_body)), 0) ∧
    ∀ c m, FetchError.emptyResult ("No data fetched with sql: " ++ query_body)
        ≠ FetchError.queryFailure c m := by
  refine ⟨?_, fun c m h => FetchError.noConfusion h⟩
  simp [fetch_timeseries, verify_success_ok, hfs, hempty]

/-- Zero-row first page with no more data. -/
def pageEmpty : TFetchTimeseriesResp :=
  { status := { code := SUCCESS_STATUS, redirectNode := none }, queryId := 2,
    columnNameList := ["time"], columnTypeList := ["INT64"],
    columnNameIndexMap := [("time", 0)], tsDataset := [], hasMoreData := false }

/-- Witness for C5 at a concrete empty first page. -/
theorem c5_empty_first_page_witness :
    fetch_timeseries "select s1 from root.sg" 10000 60000 pageEmpty []
      = (.error (.emptyResult ("No data fetched with sql: " ++ "select s1 from root.sg")), 0) ∧
    ∀ c m, FetchError.emptyResult ("No data fetched with sql: " ++ "select s1 from root.sg")
        ≠ FetchError.queryFailure c m :=
  c5_empty_first_page "select s1 from root.sg" 10000 60000 pageEmpty [] rfl rfl

/-- C10: constructing a ConfigNodeClient eagerly connects; when the
configured initial leader does not accept a connection, the member list is
still empty, so the round-robin loop has no candidates, exactly one
connection attempt is made, and the constructor raises the
reconnection-failure exception instead of returning a client. -/
theorem c10_constructor_failure (reach : TEndPoint → Bool) (e : TEndPoint)
    (h : reach e = false) :
    ConfigNodeClient.init reach e
      = .error (.clusterUnreachable msgReconnectionFail) ∧
    (tryToConnect reach (ConfigNodeClient.initialState e)).tried = [e] := by
  constructor <;>
    simp [ConfigNodeClient.init, ConfigNodeClient.initialState, tryToConnect, h,
      closeCurrentTransport, roundRobin]

/-- Witness for C10 at a concrete unreachable leader. -/
theorem c10_constructor_failure_witness :
    ConfigNodeClient.init (fun _ => false) { ip := "cn1", port := 10710 }
      = .error (.clusterUnreachable msgReconnectionFail) ∧
    (tryToConnect (fun _ => false)
        (ConfigNodeClient.initialState { ip := "cn1", port := 10710 })).tried
      = [{ ip := "cn1", port := 10710 }] :=
  c10_constructor_failure (fun _ => false) { ip := "cn1", port := 10710 } rfl

/-- C7: evaluating the factory at a two-endpoint resolved list shows the
bug — the entire resolved list is stored as `config_leader` (a parameter
annotated `TEndPoint`), the first entry is not singled out as the initial
presumed leader, and `known_members` starts empty rather than holding the
list. -/
theorem c7_factory_passes_list :
    borrow_config_node_client
        [{ ip := "10.0.0.1", port := 10710 }, { ip := "10.0.0.2", port := 10710 }]
      = { config_leader := .endpointList
            [{ ip := "10.0.0.1", port := 10710 }, { ip := "10.0.0.2", port := 10710 }],
          config_nodes := [], cursor := 0 } ∧
    (borrow_config_node_client
        [{ ip := "10.0.0.1", port := 10710 }, { ip := "10.0.0.2", port := 10710 }]).config_leader
      ≠ .endpoint { ip := "10.0.0.1", port := 10710 } ∧
    (borrow_config_node_client
        [{ ip := "10.0.0.1", port := 10710 }, { ip := "10.0.0.2", port := 10710 }]).config_nodes
      ≠ [{ ip := "10.0.0.1", port := 10710 }, { ip := "10.0.0.2", port := 10710 }] :=
  ⟨rfl, by decide, by decide⟩

/-- Sample client state used by several witnesses: connected to cn1, two
known members. -/
def sampleClient : ConfigNodeClient :=
  { config_leader := some { ip := "cn1", port := 10710 },
    config_nodes := [{ ip := "cn1", port := 10710 }, { ip := "cn2", port := 10710 }],
    cursor := 0, transport := none,
    client := some { ip := "cn1", port := 10710 },
    openTransports := [{ ip := "cn1", port := 10710 }] }

/-- C1: for each control-plane operation, when every scripted attempt
fails (transport exception, or a redirect with no definitive response),
the call issues at most RETRY_NUM RPCs, fails with the
reconnection-failure exception whose message carries "Fail to connect to
any config node", and never returns a success value. -/
theorem c1_retry_exhaustion :
    (∃ t, msgReconnectionFail = "Fail to connect to any config node" ++ t) ∧
    (∀ (reach : TEndPoint → Bool) (cluster_name : String)
        (configuration : TAINodeConfiguration) (version_info : TNodeVersionInfo)
        (script : List (RpcResult TAINodeRegisterResp)) (s : ConfigNodeClient),
      script.all (attemptFails (fun r => r.status)) = true →
      (node_register reach cluster_name configuration version_info script s).1
        = .error (.clusterUnreachable msgReconnectionFail) ∧
      (node_register reach cluster_name configuration version_info script s).2
        ≤ RETRY_NUM) ∧
    (∀ (reach : TEndPoint → Bool) (cluster_name : String)
        (configuration : TAINodeConfiguration) (version_info : TNodeVersionInfo)
        (script : List (RpcResult TAINodeRestartResp)) (s : ConfigNodeClient),
      script.all (attemptFails (fun r => r.status)) = true →
      (node_restart reach cluster_name configuration version_info script s).1
        = .error (.clusterUnreachable msgReconnectionFail) ∧
      (node_restart reach cluster_name configuration version_info script s).2
        ≤ RETRY_NUM) ∧
    (∀ (reach : TEndPoint → Bool) (location : TAINodeLocation)
        (script : List (RpcResult TSStatus)) (s : ConfigNodeClient),
      script.all (attemptFails (fun r => r)) = true →
      (node_remove reach location script s).1
        = .error (.clusterUnreachable msgReconnectionFail) ∧
      (node_remove reach location script s).2 ≤ RETRY_NUM) ∧
    (∀ (reach : TEndPoint → Bool) (node_id : Int)
        (script : List (RpcResult TAINodeConfigurationResp)) (s : ConfigNodeClient),
      script.all (attemptFails (fun r => r.status)) = true →
      (get_ainode_configuration reach node_id script s).1
        = .error (.clusterUnreachable msgReconnectionFail) ∧
      (get_ainode_configuration reach node_id script s).2 ≤ RETRY_NUM) := by
  refine ⟨⟨". Please check status of ConfigNodes", rfl⟩, ?_, ?_, ?_, ?_⟩
  · intro reach cluster_name configuration version_info script s h
    exact opLoop_all_fail reach _ _ _ RETRY_NUM script s h
  · intro reach cluster_name configuration version_info script s h
    exact opLoop_all_fail reach _ _ _ RETRY_NUM script s h
  · intro reach location script s h
    exact opLoop_all_fail reach _ _ _ RETRY_NUM script s h
  · intro reach node_id script s h
    exact opLoop_all_fail reach _ _ _ RETRY_NUM script s h

/-- Witness for C1: all four operations at concrete all-failing scripts
(five transport failures, or a redirect among transport failures) against
an unreachable cluster. -/
theorem c1_retry_exhaustion_witness :
    ((node_register (fun _ => false) "defaultCluster" ⟨⟩ ⟨⟩
        [.thrown,
         .reply { status := { code := REDIRECTION_RECOMMEND,
                              redirectNode := some { ip := "cn2", port := 10710 } },
                  configNodeList := [], aiNodeId := 0 },
         .thrown, .thrown, .thrown] sampleClient).1
        = .error (.clusterUnreachable msgReconnectionFail) ∧
      (node_register (fun _ => false) "defaultCluster" ⟨⟩ ⟨⟩
        [.thrown,
         .reply { status := { code := REDIRECTION_RECOMMEND,
                              redirectNode := some { ip := "cn2", port := 10710 } },
                  configNodeList := [], aiNodeId := 0 },
         .thrown, .thrown, .thrown] sampleClient).2 ≤ RETRY_NUM) ∧
    ((node_restart (fun _ => false) "defaultCluster" ⟨⟩ ⟨⟩
        [.thrown, .thrown, .thrown, .thrown, .thrown] sampleClient).1
        = .error (.clusterUnreachable msgReconnectionFail) ∧
      (node_restart (fun _ => false) "defaultCluster" ⟨⟩ ⟨⟩
        [.thrown, .thrown, .thrown, .thrown, .thrown] sampleClient).2 ≤ RETRY_NUM) ∧
    ((node_remove (fun _ => false) ⟨⟩
        [.thrown, .thrown, .thrown, .thrown, .thrown] sampleClient).1
        = .error (.clusterUnreachable msgReconnectionFail) ∧
      (node_remove (fun _ => false) ⟨⟩
        [.thrown, .thrown, .thrown, .thrown, .thrown] sampleClient).2 ≤ RETRY_NUM) ∧
    ((get_ainode_configuration (fun _ => false) 3
        [.thrown, .thrown, .thrown, .thrown, .thrown] sampleClient).1
        = .error (.clusterUnreachable msgReconnectionFail) ∧
      (get_ainode_configuration (fun _ => false) 3
        [.thrown, .thrown, .thrown, .thrown, .thrown] sampleClient).2 ≤ RETRY_NUM) :=
  ⟨c1_retry_exhaustion.2.1 (fun _ => false) "defaultCluster" ⟨⟩ ⟨⟩ _ sampleClient
     (by decide),
   c1_retry_exhaustion.2.2.1 (fun _ => false) "defaultCluster" ⟨⟩ ⟨⟩ _ sampleClient
     (by decide),
   c1_retry_exhaustion.2.2.2.1 (fun _ => false) ⟨⟩ _ sampleClient (by decide),
   c1_retry_exhaustion.2.2.2.2 (fun _ => false) 3 _ sampleClient (by decide)⟩

/-- C2: a redirect reply sets the presumed leader to the endpoint it
names — or clears it when it names none; a redirect is never returned as a
success and always triggers another attempt within the same retry budget
(one unit of fuel is consumed and the loop re-resolves and continues);
and the next connection attempt goes to the presumed leader first
whenever one is set. -/
theorem c2_redirect_handling :
    (∀ (status : TSStatus) (s : ConfigNodeClient),
      status.code = REDIRECTION_RECOMMEND →
      updateConfigNodeLeader status s
        = ({ s with config_leader := status.redirectNode }, true)) ∧
    (∀ (reach : TEndPoint → Bool) (s : ConfigNodeClient) (e : TEndPoint),
      s.config_leader = some e →
      (tryToConnect reach s).tried.head? = some e) ∧
    (∀ (α β : Type) (reach : TEndPoint → Bool) (stat : α → TSStatus)
        (onSuccess : α → ConfigNodeClient → ConfigNodeClient) (payload : α → β)
        (a : α) (rest : List (RpcResult α)) (fuel : Nat) (s : ConfigNodeClient),
      (stat a).code = REDIRECTION_RECOMMEND →
      opLoop reach stat onSuccess payload (.reply a :: rest) (fuel + 1) s
        = (match waitAndReconnect reach
              { s with config_leader := (stat a).redirectNode } with
           | (s2, none) =>
             ((opLoop reach stat onSuccess payload rest fuel s2).1,
              (opLoop reach stat onSuccess payload rest fuel s2).2 + 1)
           | (_, some e) =>
             ((.error e : Except ClientError (β × ConfigNodeClient)), 1))) := by
  refine ⟨?_, ?_, ?_⟩
  · intro status s h
    simp [updateConfigNodeLeader, h]
  · intro reach s e h
    simp only [tryToConnect, h]
    by_cases hr : reach e <;> simp [hr]
  · intro α β reach stat onSuccess payload a rest fuel s h
    rcases hw : waitAndReconnect reach { s with config_leader := (stat a).redirectNode }
      with ⟨s2, e⟩
    cases e <;> simp [opLoop, updateConfigNodeLeader, h, hw]

/-- Witness for C2: a redirect naming cn2 installs cn2 as presumed leader,
a redirect naming nothing clears the leader, the next connection attempt
goes to the presumed leader first, and a concrete redirect reply consumes
one unit of retry budget without producing a success. -/
theorem c2_redirect_handling_witness :
    updateConfigNodeLeader
        { code := REDIRECTION_RECOMMEND, redirectNode := some { ip := "cn2", port := 10710 } }
        sampleClient
      = ({ sampleClient with config_leader := some { ip := "cn2", port := 10710 } }, true) ∧
    updateConfigNodeLeader
        { code := REDIRECTION_RECOMMEND, redirectNode := none } sampleClient
      = ({ sampleClient with config_leader := none }, true) ∧
    (tryToConnect (fun _ => true) sampleClient).tried.head?
      = some { ip := "cn1", port := 10710 } ∧
    opLoop (fun _ => false) (fun r : TSStatus => r) (fun _ t => t) (fun r => r)
        [.reply { code := REDIRECTION_RECOMMEND,
                  redirectNode := some { ip := "cn2", port := 10710 } }]
        (0 + 1) sampleClient
      = (.error (.clusterUnreachable msgReconnectionFail), 1) := by
  refine ⟨?_, ?_, ?_, ?_⟩
  · exact c2_redirect_handling.1 _ sampleClient rfl
  · exact c2_redirect_handling.1 _ sampleClient rfl
  · exact c2_redirect_handling.2.1 (fun _ => true) sampleClient _ rfl
  · rw [c2_redirect_handling.2.2 TSStatus TSStatus (fun _ => false) (fun r => r)
      (fun _ t => t) (fun r => r) _ [] 0 sampleClient rfl]
    decide

/-- With no presumed leader, __try_to_connect is the transport-close step
followed by the round-robin loop over the full member list. -/
lemma tryToConnect_none (reach : TEndPoint → Bool) (s : ConfigNodeClient)
    (h : s.config_leader = none) :
    tryToConnect reach s
      = roundRobin reach s.config_nodes.length (closeCurrentTransport s) := by
  simp [tryToConnect, h]

/-- C3: with no reachable presumed leader and a non-empty member list of
length N, resolution tries members at indices (cursor+1)%N, (cursor+2)%N,
… in order (at most N candidates), stops at the first reachable one with
the stored cursor updated to that member's index and a connection to it,
and raises the reconnection-failure exception when none of the N
candidates connects.  An unreachable presumed leader only prepends one
failed attempt at the leader before the same round-robin resolution. -/
theorem c3_round_robin_resolution (reach : TEndPoint → Bool) (s : ConfigNodeClient)
    (hne : s.config_nodes ≠ []) :
    (∀ l, s.config_leader = some l → reach l = false →
      tryToConnect reach s
        = { tryToConnect reach { s with config_leader := none } with
            tried := l :: (tryToConnect reach { s with config_leader := none }).tried }) ∧
    (s.config_leader = none →
      ((∀ i < s.config_nodes.length,
          reach (candidate s.config_nodes s.cursor i) = false) →
        (tryToConnect reach s).err
          = some (.clusterUnreachable msgReconnectionFail) ∧
        (tryToConnect reach s).tried
          = (List.range s.config_nodes.length).map (candidate s.config_nodes s.cursor)) ∧
      (∀ j < s.config_nodes.length,
        (∀ i < j, reach (candidate s.config_nodes s.cursor i) = false) →
        reach (candidate s.config_nodes s.cursor j) = true →
        (tryToConnect reach s).err = none ∧
        (tryToConnect reach s).tried
          = (List.range (j + 1)).map (candidate s.config_nodes s.cursor) ∧
        (tryToConnect reach s).state.cursor
          = (s.cursor + 1 + j) % s.config_nodes.length ∧
        (tryToConnect reach s).state.client
          = some (candidate s.config_nodes s.cursor j))) := by
  refine ⟨?_, ?_⟩
  · intro l hl hr
    simp [tryToConnect, hl, hr]
  · intro hnl
    rw [tryToConnect_none reach s hnl]
    constructor
    · intro hmiss
      obtain ⟨h1, h2, -, -, -⟩ := roundRobin_miss reach
        (s.config_nodes.length) (closeCurrentTransport s) (by simpa using hmiss)
      refine ⟨h1, ?_⟩
      simpa using h2
    · intro j hj hmiss hhit
      have hr := roundRobin_hit reach j (s.config_nodes.length)
        (closeCurrentTransport s) (by simpa using hj) (by simpa using hmiss)
        (by simpa using hhit)
      rw [hr]
      refine ⟨rfl, ?_, ?_, ?_⟩ <;> simp [connectTo]

/-- Member list used by the round-robin witness: no leader set, three
known members. -/
def rrClient : ConfigNodeClient :=
  { config_leader := none,
    config_nodes := [{ ip := "a", port := 1 }, { ip := "b", port := 2 },
      { ip := "c", port := 3 }],
    cursor := 0, transport := none, client := none, openTransports := [] }

/-- Witness for C3: an unreachable leader prepends one attempt; with no
leader and nobody reachable all three members are tried in order and the
reconnection failure is raised; with only the member at index 0 reachable
the loop wraps around, trying indices 1, 2, 0 and stopping at 0. -/
theorem c3_round_robin_resolution_witness :
    (tryToConnect (fun _ => false) sampleClient
      = { tryToConnect (fun _ => false) { sampleClient with config_leader := none } with
          tried := { ip := "cn1", port := 10710 }
            :: (tryToConnect (fun _ => false)
                  { sampleClient with config_leader := none }).tried }) ∧
    ((tryToConnect (fun _ => false) rrClient).err
        = some (.clusterUnreachable msgReconnectionFail) ∧
      (tryToConnect (fun _ => false) rrClient).tried
        = (List.range rrClient.config_nodes.length).map
            (candidate rrClient.config_nodes rrClient.cursor)) ∧
    ((tryToConnect (fun e => e.port == 1) rrClient).err = none ∧
      (tryToConnect (fun e => e.port == 1) rrClient).tried
        = (List.range (2 + 1)).map (candidate rrClient.config_nodes rrClient.cursor) ∧
      (tryToConnect (fun e => e.port == 1) rrClient).state.cursor
        = (rrClient.cursor + 1 + 2) % rrClient.config_nodes.length ∧
      (tryToConnect (fun e => e.port == 1) rrClient).state.client
        = some (candidate rrClient.config_nodes rrClient.cursor 2)) :=
  ⟨(c3_round_robin_resolution (fun _ => false) sampleClient (by decide)).1 _ rfl rfl,
   ((c3_round_robin_resolution (fun _ => false) rrClient (by decide)).2 rfl).1
     (by decide),
   ((c3_round_robin_resolution (fun e => e.port == 1) rrClient (by decide)).2 rfl).2 2
     (by decide) (by decide) (by decide)⟩

/-- An unreachable presumed leader turns __try_to_connect into the
no-leader resolution with the failed leader attempt prepended. -/
lemma tryToConnect_leader_unreachable (reach : TEndPoint → Bool)
    (s : ConfigNodeClient) (l : TEndPoint) (hl : s.config_leader = some l)
    (hr : reach l = false) :
    tryToConnect reach s
      = { tryToConnect reach { s with config_leader := none } with
          tried := l :: (tryToConnect reach { s with config_leader := none }).tried } := by
  simp [tryToConnect, hl, hr]

/-- With a non-empty member list and no presumed leader, __try_to_connect
leaves the cursor at a valid index. -/
lemma tryToConnect_cursor_lt (reach : TEndPoint → Bool) (s : ConfigNodeClient)
    (hne : s.config_nodes ≠ []) (hnl : s.config_leader = none) :
    (tryToConnect reach s).state.cursor < s.config_nodes.length := by
  have hpos : 0 < s.config_nodes.length := List.length_pos.mpr hne
  rw [tryToConnect_none reach s hnl]
  obtain ⟨m, hm⟩ : ∃ m, s.config_nodes.length = m + 1 :=
    ⟨s.config_nodes.length - 1, by omega⟩
  rw [hm]
  have := roundRobin_cursor_lt reach m (closeCurrentTransport s) (by simpa using hpos)
  simpa [hm] using this

/-- A definitive success reply settles the retry loop in one RPC: the
success-path update runs on the unchanged state and the payload is
returned. -/
lemma opLoop_success {α β : Type} (reach : TEndPoint → Bool) (stat : α → TSStatus)
    (onSuccess : α → ConfigNodeClient → ConfigNodeClient) (payload : α → β)
    (a : α) (rest : List (RpcResult α)) (fuel : Nat) (s : ConfigNodeClient)
    (h : (stat a).code = SUCCESS_STATUS) :
    opLoop reach stat onSuccess payload (.reply a :: rest) (fuel + 1) s
      = (.ok (payload a, onSuccess a s), 1) := by
  have hne : ¬ (stat a).code = REDIRECTION_RECOMMEND := by
    rw [h]
    decide
  simp [opLoop, updateConfigNodeLeader, hne, verify_success_ok, h,
    SUCCESS_STATUS, REDIRECTION_RECOMMEND]

/-- C6 (amended): on a reply carrying a definitive success status,
register-node and restart-node return their operation-specific payload and
refresh known_members from the reply's configNodeList, while remove-node
and get-node-configuration return their payload and leave the client
state — including known_members — unchanged, their replies carrying no
membership list; in each case exactly one RPC is issued. -/
theorem c6_success_path (reach : TEndPoint → Bool) (s : ConfigNodeClient)
    (cluster_name : String) (configuration : TAINodeConfiguration)
    (version_info : TNodeVersionInfo) :
    (∀ (a : TAINodeRegisterResp) (rest : List (RpcResult TAINodeRegisterResp)),
      a.status.code = SUCCESS_STATUS →
      node_register reach cluster_name configuration version_info
          (.reply a :: rest) s
        = (.ok (a.aiNodeId, { s with config_nodes := a.configNodeList }), 1)) ∧
    (∀ (a : TAINodeRestartResp) (rest : List (RpcResult TAINodeRestartResp)),
      a.status.code = SUCCESS_STATUS →
      node_restart reach cluster_name configuration version_info
          (.reply a :: rest) s
        = (.ok (a.status, { s with config_nodes := a.configNodeList }), 1)) ∧
    (∀ (a : TSStatus) (rest : List (RpcResult TSStatus))
        (location : TAINodeLocation),
      a.code = SUCCESS_STATUS →
      node_remove reach location (.reply a :: rest) s = (.ok (a, s), 1)) ∧
    (∀ (a : TAINodeConfigurationResp)
        (rest : List (RpcResult TAINodeConfigurationResp)) (node_id : Int),
      a.status.code = SUCCESS_STATUS →
      get_ainode_configuration reach node_id (.reply a :: rest) s
        = (.ok (a.aiNodeConfigurationMap, s), 1)) := by
  refine ⟨?_, ?_, ?_, ?_⟩
  · intro a rest h
    simpa [node_register, RETRY_NUM] using
      opLoop_success reach (fun r => r.status)
        (fun r t => { t with config_nodes := r.configNodeList })
        (fun r => r.aiNodeId) a rest 4 s h
  · intro a rest h
    simpa [node_restart, RETRY_NUM] using
      opLoop_success reach (fun r => r.status)
        (fun r t => { t with config_nodes := r.configNodeList })
        (fun r => r.status) a rest 4 s h
  · intro a rest location h
    simpa [node_remove, RETRY_NUM] using
      opLoop_success reach (fun r => r) (fun _ t => t) (fun r => r) a rest 4 s h
  · intro a rest node_id h
    simpa [get_ainode_configuration, RETRY_NUM] using
      opLoop_success reach (fun r => r.status) (fun _ t => t)
        (fun r => r.aiNodeConfigurationMap) a rest 4 s h

/-- Witness for C6 (amended) at concrete success replies against
sampleClient, covering the register scenario (node id 7, refreshed member
list) and the unchanged-state operations. -/
theorem c6_success_path_witness :
    node_register (fun _ => true) "defaultCluster" ⟨⟩ ⟨⟩
        [.reply { status := { code := SUCCESS_STATUS, redirectNode := none },
                  configNodeList := [{ ip := "m1", port := 1 }, { ip := "m2", port := 2 },
                    { ip := "m3", port := 3 }],
                  aiNodeId := 7 }] sampleClient
      = (.ok (7, { sampleClient with
            config_nodes := [{ ip := "m1", port := 1 }, { ip := "m2", port := 2 },
              { ip := "m3", port := 3 }] }), 1) ∧
    node_restart (fun _ => true) "defaultCluster" ⟨⟩ ⟨⟩
        [.reply { status := { code := SUCCESS_STATUS, redirectNode := none },
                  configNodeList := [{ ip := "m1", port := 1 }] }] sampleClient
      = (.ok ({ code := SUCCESS_STATUS, redirectNode := none },
          { sampleClient with config_nodes := [{ ip := "m1", port := 1 }] }), 1) ∧
    node_remove (fun _ => true) ⟨⟩
        [.reply { code := SUCCESS_STATUS, redirectNode := none }] sampleClient
      = (.ok ({ code := SUCCESS_STATUS, redirectNode := none }, sampleClient), 1) ∧
    get_ainode_configuration (fun _ => true) 7
        [.reply { status := { code := SUCCESS_STATUS, redirectNode := none },
                  aiNodeConfigurationMap := [] }] sampleClient
      = (.ok ([], sampleClient), 1) :=
  ⟨(c6_success_path (fun _ => true) sampleClient "defaultCluster" ⟨⟩ ⟨⟩).1 _ [] rfl,
   (c6_success_path (fun _ => true) sampleClient "defaultCluster" ⟨⟩ ⟨⟩).2.1 _ [] rfl,
   (c6_success_path (fun _ => true) sampleClient "defaultCluster" ⟨⟩ ⟨⟩).2.2.1 _ [] ⟨⟩ rfl,
   (c6_success_path (fun _ => true) sampleClient "defaultCluster" ⟨⟩ ⟨⟩).2.2.2 _ [] 7 rfl⟩

/-- Stale client state with one remembered member, used to refute the
membership-refresh reading of the remove operation. -/
def staleClient1 : ConfigNodeClient :=
  { config_leader := some { ip := "cn1", port := 10710 },
    config_nodes := [{ ip := "old1", port := 1 }], cursor := 0,
    transport := none, client := some { ip := "cn1", port := 10710 },
    openTransports := [] }

/-- Same as staleClient1 but remembering a different member. -/
def staleClient2 : ConfigNodeClient :=
  { staleClient1 with config_nodes := [{ ip := "old2", port := 2 }] }

/-- Counterexample for C6 as stated: two successful node_remove calls that
receive the identical definitive-success response end with different
known_members lists — each keeps its stale pre-call list — so
known_members is not refreshed from (indeed not a function of) the
response; the remove response carries no membership list at all. -/
theorem c6_counterexample :
    (node_remove (fun _ => true) ⟨⟩
        [.reply { code := SUCCESS_STATUS, redirectNode := none }] staleClient1).1
      = .ok ({ code := SUCCESS_STATUS, redirectNode := none }, staleClient1) ∧
    (node_remove (fun _ => true) ⟨⟩
        [.reply { code := SUCCESS_STATUS, redirectNode := none }] staleClient2).1
      = .ok ({ code := SUCCESS_STATUS, redirectNode := none }, staleClient2) ∧
    staleClient1.config_nodes ≠ staleClient2.config_nodes := by
  decide

/-- C8 (amended): whenever the member list is non-empty and the presumed
leader is absent or unreachable, every cursor value stored by
__try_to_connect's round-robin step is reduced modulo the member-list
length and is therefore a valid index; but a success-path membership
refresh (node_register) leaves the stored cursor unchanged, so the
validity invariant need not survive a refresh to a shorter list. -/
theorem c8_cursor_validity (reach : TEndPoint → Bool) (s : ConfigNodeClient)
    (hne : s.config_nodes ≠ []) :
    (s.config_leader = none →
      (tryToConnect reach s).state.cursor < s.config_nodes.length) ∧
    (∀ l, s.config_leader = some l → reach l = false →
      (tryToConnect reach s).state.cursor < s.config_nodes.length) ∧
    (∀ (cluster_name : String) (configuration : TAINodeConfiguration)
        (version_info : TNodeVersionInfo) (a : TAINodeRegisterResp)
        (rest : List (RpcResult TAINodeRegisterResp)),
      a.status.code = SUCCESS_STATUS →
      node_register reach cluster_name configuration version_info
          (.reply a :: rest) s
        = (.ok (a.aiNodeId, { s with config_nodes := a.configNodeList }), 1) ∧
      ({ s with config_nodes := a.configNodeList } : ConfigNodeClient).cursor
        = s.cursor) := by
  refine ⟨?_, ?_, ?_⟩
  · intro hnl
    exact tryToConnect_cursor_lt reach s hne hnl
  · intro l hl hr
    rw [tryToConnect_leader_unreachable reach s l hl hr]
    exact tryToConnect_cursor_lt reach { s with config_leader := none }
      (by simpa using hne) rfl
  · intro cluster_name configuration version_info a rest h
    refine ⟨?_, rfl⟩
    simpa [node_register, RETRY_NUM] using
      opLoop_success reach (fun r => r.status)
        (fun r t => { t with config_nodes := r.configNodeList })
        (fun r => r.aiNodeId) a rest 4 s h

/-- Witness for C8 (amended): the round-robin step on rrClient stores a
valid cursor, the unreachable-leader case on sampleClient does too, and a
refreshing success reply keeps the cursor unchanged. -/
theorem c8_cursor_validity_witness :
    (tryToConnect (fun e => e.port == 1) rrClient).state.cursor
      < rrClient.config_nodes.length ∧
    (tryToConnect (fun _ => false) sampleClient).state.cursor
      < sampleClient.config_nodes.length ∧
    (node_register (fun _ => false) "defaultCluster" ⟨⟩ ⟨⟩
        [.reply { status := { code := SUCCESS_STATUS, redirectNode := none },
                  configNodeList := [{ ip := "m1", port := 1 }], aiNodeId := 9 }]
        sampleClient
      = (.ok (9, { sampleClient with
            config_nodes := [{ ip := "m1", port := 1 }] }), 1) ∧
      ({ sampleClient with
          config_nodes := [{ ip := "m1", port := 1 }] } : ConfigNodeClient).cursor
        = sampleClient.cursor) :=
  ⟨(c8_cursor_validity (fun e => e.port == 1) rrClient (by decide)).1 rfl,
   (c8_cursor_validity (fun _ => false) sampleClient (by decide)).2.1 _ rfl rfl,
   (c8_cursor_validity (fun _ => false) sampleClient (by decide)).2.2
     "defaultCluster" ⟨⟩ ⟨⟩ _ [] rfl⟩

/-- Counterexample for C8 as stated: a reachable run — construct against
leader l, register and learn the two-member list [a, b], then retry a
register during which l and a are down, so round robin connects to b
leaving cursor 1, and the success reply refreshes the member list to the
single member [c] — ends in a state whose member list is non-empty while
the stored cursor 1 is not a valid index into it. -/
theorem c8_counterexample :
    ConfigNodeClient.init (fun _ => true) { ip := "l", port := 9 }
      = .ok { config_leader := some { ip := "l", port := 9 }, config_nodes := [],
              cursor := 0, transport := none,
              client := some { ip := "l", port := 9 },
              openTransports := [{ ip := "l", port := 9 }] } ∧
    (node_register (fun _ => true) "defaultCluster" ⟨⟩ ⟨⟩
        [.reply { status := { code := SUCCESS_STATUS, redirectNode := none },
                  configNodeList := [{ ip := "a", port := 1 }, { ip := "b", port := 2 }],
                  aiNodeId := 7 }]
        { config_leader := some { ip := "l", port := 9 }, config_nodes := [],
          cursor := 0, transport := none,
          client := some { ip := "l", port := 9 },
          openTransports := [{ ip := "l", port := 9 }] }).1
      = .ok (7,
          { config_leader := some { ip := "l", port := 9 },
            config_nodes := [{ ip := "a", port := 1 }, { ip := "b", port := 2 }],
            cursor := 0, transport := none,
            client := some { ip := "l", port := 9 },
            openTransports := [{ ip := "l", port := 9 }] }) ∧
    (node_register (fun e => e.port == 2) "defaultCluster" ⟨⟩ ⟨⟩
        [.thrown,
         .reply { status := { code := SUCCESS_STATUS, redirectNode := none },
                  configNodeList := [{ ip := "c", port := 3 }], aiNodeId := 8 }]
        { config_leader := some { ip := "l", port := 9 },
          config_nodes := [{ ip := "a", port := 1 }, { ip := "b", port := 2 }],
          cursor := 0, transport := none,
          client := some { ip := "l", port := 9 },
          openTransports := [{ ip := "l", port := 9 }] }).1
      = .ok (8,
          { config_leader := none,
            config_nodes := [{ ip := "c", port := 3 }],
            cursor := 1, transport := none,
            client := some { ip := "b", port := 2 },
            openTransports := [{ ip := "l", port := 9 }, { ip := "b", port := 2 }] }) ∧
    ({ config_leader := none,
       config_nodes := [{ ip := "c", port := 3 }],
       cursor := 1, transport := none,
       client := some { ip := "b", port := 2 },
       openTransports := [{ ip := "l", port := 9 }, { ip := "b", port := 2 }]
       : ConfigNodeClient }.config_nodes ≠ [] ∧
     ¬ ({ config_leader := none,
          config_nodes := [{ ip := "c", port := 3 }],
          cursor := 1, transport := none,
          client := some { ip := "b", port := 2 },
          openTransports := [{ ip := "l", port := 9 }, { ip := "b", port := 2 }]
          : ConfigNodeClient }.cursor
        < { config_leader := none,
            config_nodes := [{ ip := "c", port := 3 }],
            cursor := 1, transport := none,
            client := some { ip := "b", port := 2 },
            openTransports := [{ ip := "l", port := 9 }, { ip := "b", port := 2 }]
            : ConfigNodeClient }.config_nodes.length)) := by
  decide

/-- C9: a concrete reachable run refuting the one-open-connection
invariant — __connect never assigns self.__transport, so the
`if self.__transport is not None: self.__transport.close()` step of
__try_to_connect never closes anything: after the client (connected to l
at construction) reconnects to b during a retried register, both the
transport opened to l and the transport opened to b are still open, while
the stored transport handle is still None. -/
theorem c9_two_open_transports :
    (node_register (fun e => e.port == 2) "defaultCluster" ⟨⟩ ⟨⟩
        [.thrown,
         .reply { status := { code := SUCCESS_STATUS, redirectNode := none },
                  configNodeList := [{ ip := "c", port := 3 }], aiNodeId := 8 }]
        { config_leader := some { ip := "l", port := 9 },
          config_nodes := [{ ip := "a", port := 1 }, { ip := "b", port := 2 }],
          cursor := 0, transport := none,
          client := some { ip := "l", port := 9 },
          openTransports := [{ ip := "l", port := 9 }] }).1
      = .ok (8,
          { config_leader := none,
            config_nodes := [{ ip := "c", port := 3 }],
            cursor := 1, transport := none,
            client := some { ip := "b", port := 2 },
            openTransports := [{ ip := "l", port := 9 }, { ip := "b", port := 2 }] }) ∧
    ({ config_leader := none,
       config_nodes := [{ ip := "c", port := 3 }],
       cursor := 1, transport := none,
       client := some { ip := "b", port := 2 },
       openTransports := [{ ip := "l", port := 9 }, { ip := "b", port := 2 }]
       : ConfigNodeClient }.openTransports.length = 2 ∧
     { config_leader := none,
       config_nodes := [{ ip := "c", port := 3 }],
       cursor := 1, transport := none,
       client := some { ip := "b", port := 2 },
       openTransports := [{ ip := "l", port := 9 }, { ip := "b", port := 2 }]
       : ConfigNodeClient }.transport = none) := by
  decide
